import Mathlib

/-!
Shallow embedding of `homework.py` / `errors.py` (Truth711/homework_bot):
a Telegram bot that polls the Practicum homework API, validates the JSON
envelope, extracts a status message and forwards it, deduplicating repeated
notifications.  Network, clock and Telegram delivery are abstracted as
explicit inputs to each cycle; everything else follows the Python source.
-/

namespace HomeworkBot

/-- Model of a decoded Python/JSON value as manipulated by `homework.py`:
strings, ints, lists, string-keyed dicts and `None`. -/
inductive PyVal where
  | str : String → PyVal
  | int : Int → PyVal
  | list : List PyVal → PyVal
  | dict : List (String × PyVal) → PyVal
  | none : PyVal

/-- Python truthiness (`bool(v)`) for the values above: empty string, zero,
empty containers and `None` are falsy. -/
def truthy : PyVal → Bool
  | .str s => !s.isEmpty
  | .int n => n != 0
  | .list l => !l.isEmpty
  | .dict d => !d.isEmpty
  | .none => false

/-- Python `d.get(k)` on a dict: `some v` when the key is present. Dict
literals in this program have pairwise distinct keys, so first-match lookup
agrees with Python dict semantics. -/
def dictGet (kvs : List (String × PyVal)) (k : String) : Option PyVal :=
  (kvs.find? (fun kv => kv.1 == k)).map Prod.snd

/-- Python `k in d` on a dict. -/
def dictHasKey (kvs : List (String × PyVal)) (k : String) : Bool :=
  (dictGet kvs k).isSome

/-- Exception kinds raised by the program: the custom classes of `errors.py`
(`SendMessageError`, `UnexpectedStatusCodeError`, `ExpectedKeysNotFoundError`,
`UnexpectedStatusError`) plus the builtin exceptions the code raises or meets
(`TypeError`, `KeyError`, `IndexError`, `AttributeError`, `ConnectionError`,
`requests` transport errors and JSON decode errors).
`unexpectedStatusCode` carries the status code and the `from_date` request
parameter structurally; in the source they are interpolated into the message
string for diagnostics. -/
inductive BotError where
  | typeErr (msg : String)
  | keyErr (msg : String)
  | expectedKeysNotFound (msg : String)
  | unexpectedStatus (msg : String)
  | unexpectedStatusCode (code : Int) (fromDate : PyVal)
  | requestException (msg : String)
  | jsonDecodeErr (msg : String)
  | attributeErr (msg : String)
  | connectionErr (msg : String)
  | sendMessageErr (msg : String)
  | indexErr

def RETRY_TIME : Nat := 600

def ENDPOINT : String := "https://practicum.yandex.ru/api/user_api/homework_statuses/"

/-- Verdict text of the catalog entry `approved`. -/
def verdictApproved : String := "Работа проверена: ревьюеру всё понравилось. Ура!"

/-- Verdict text of the catalog entry `reviewing`. -/
def verdictReviewing : String := "Работа взята на проверку ревьюером."

/-- Verdict text of the catalog entry `rejected`. -/
def verdictRejected : String := "Работа проверена: у ревьюера есть замечания."

/-- The status catalog `HOMEWORK_STATUSES` of `homework.py`. -/
def HOMEWORK_STATUSES : List (String × String) :=
  [("approved", verdictApproved),
   ("reviewing", verdictReviewing),
   ("rejected", verdictRejected)]

/-- Python `str(v)` as used by the f-strings of `homework.py`.  Containers are
rendered approximately; no claim formats a container. -/
def pyFormat : PyVal → String
  | .str s => s
  | .int n => toString n
  | .none => "None"
  | .list _ => "[...]"
  | .dict _ => "dict"

/-- Python `str(exc)` for each exception kind, as used by the loop's
diagnostic f-string.  `str` of a `KeyError` is the `repr` of its argument,
hence the surrounding quotes.  The `unexpectedStatusCode` rendering mirrors
the concatenated message built in `get_api_answer` (headers elided); that
exception never reaches the formatter because `get_api_answer` wraps it. -/
def errMessage : BotError → String
  | .typeErr m => m
  | .keyErr m => "'" ++ m ++ "'"
  | .expectedKeysNotFound m => m
  | .unexpectedStatus m => m
  | .unexpectedStatusCode code fromDate =>
      "Не удалось соединиться с сервером." ++ "Код ответа: " ++ toString code ++
      "URL запроса: " ++ ENDPOINT ++ "params: from_date=" ++ pyFormat fromDate
  | .requestException m => m
  | .jsonDecodeErr m => m
  | .attributeErr m => m
  | .connectionErr m => m
  | .sendMessageErr m => m
  | .indexErr => "list index out of range"

/-- `send_message` of `homework.py`: `bot.send_message` may fail for any
reason (`delivered` abstracts the Telegram transport); every underlying
failure is wrapped into `SendMessageError`, success just logs. -/
def send_message (delivered : Bool) (message : String) : Except BotError Unit :=
  if delivered then .ok () else .error (.sendMessageErr "Не удалось отправить сообщение.")

/-- Outcome of the `requests.get` call in `get_api_answer`: either an HTTP
response with a status code and a body (`Option.none` body means the body is
not valid JSON, so `response.json()` raises), or a transport error / timeout
raised by `requests.get` itself. -/
inductive HttpOutcome where
  | response (status_code : Int) (jsonBody : Option PyVal)
  | transportFailure (msg : String)

/-- The `from_date` request parameter: `timestamp = current_timestamp or
int(time.time())`, so a falsy stored timestamp (`None` or `0`) is replaced by
the current wall-clock time `now`. -/
def requestParams (current_timestamp : PyVal) (now : Int) : PyVal :=
  if truthy current_timestamp then current_timestamp else .int now

/-- Body of the `try` block of `get_api_answer`: a non-200 status raises
`UnexpectedStatusCodeError` (carrying the code and request parameters), a
transport failure raises the underlying `requests` exception, a non-JSON body
raises a JSON decode error, otherwise the decoded envelope is returned. -/
def get_api_answer_inner (fromDate : PyVal) (http : HttpOutcome) : Except BotError PyVal :=
  match http with
  | .transportFailure m => .error (.requestException m)
  | .response code body =>
      if code ≠ 200 then .error (.unexpectedStatusCode code fromDate)
      else
        match body with
        | some j => .ok j
        | Option.none => .error (.jsonDecodeErr "response body is not JSON")

/-- `get_api_answer` of `homework.py`.  The whole `try` block — including the
`raise UnexpectedStatusCodeError` for a non-200 status — sits inside
`except Exception`, which re-raises every failure as the builtin
`ConnectionError` with a fixed message. -/
def get_api_answer (current_timestamp : PyVal) (now : Int) (http : HttpOutcome) :
    Except BotError PyVal :=
  match get_api_answer_inner (requestParams current_timestamp now) http with
  | .ok j => .ok j
  | .error _ =>
      .error (.connectionErr "Ответ от сервера не получен/Формат ответа отличен от JSON ")

/-- Python `isinstance(v, list)`. -/
def isListVal : PyVal → Bool
  | .list _ => true
  | _ => false

/-- `check_response` of `homework.py`: `TypeError` for a non-dict,
`ExpectedKeysNotFoundError` when `'current_date' not in response and
'homeworks' not in response` (both keys absent), then `TypeError` when
`response.get('homeworks')` is not a list, else the homework list. -/
def check_response (response : PyVal) : Except BotError (List PyVal) :=
  match response with
  | .dict kvs =>
      if !dictHasKey kvs "current_date" && !dictHasKey kvs "homeworks" then
        .error (.expectedKeysNotFound "Ответ не содержит ожидаемых ключей.")
      else
        match (dictGet kvs "homeworks").getD .none with
        | .list homeworks => .ok homeworks
        | _ => .error (.typeErr "homeworks не является списком.")
  | _ => .error (.typeErr "Ответ сервер не является словарем.")

/-- Python `homework_status in HOMEWORK_STATUSES`: dict membership hashes
the key.  A string key is looked up (the catalog keys are strings); an int or
`None` key is hashable but never a member; a list- or dict-valued key raises
`TypeError: unhashable type` before any membership answer. -/
def statusMember (v : PyVal) : Except BotError Bool :=
  match v with
  | .str s => .ok ((HOMEWORK_STATUSES.find? (fun p => p.1 == s)).isSome)
  | .int _ => .ok false
  | .none => .ok false
  | .list _ => .error (.typeErr "unhashable type: 'list'")
  | .dict _ => .error (.typeErr "unhashable type: 'dict'")

/-- Python `HOMEWORK_STATUSES.get(homework_status)`. -/
def catalogVerdict (v : PyVal) : Option String :=
  match v with
  | .str s => (HOMEWORK_STATUSES.find? (fun p => p.1 == s)).map Prod.snd
  | _ => Option.none

/-- `parse_status` of `homework.py`: `KeyError` when the name is falsy
(missing or empty); then the membership test `homework_status not in
HOMEWORK_STATUSES` runs — it raises `TypeError` for an unhashable status
value, yields `UnexpectedStatusError` when the status is hashable but not a
catalog key, and otherwise the formatted notification string is returned.
A non-dict record would raise `AttributeError` at `.get`. -/
def parse_status (homework : PyVal) : Except BotError String :=
  match homework with
  | .dict kvs =>
      let homework_name := (dictGet kvs "homework_name").getD .none
      let homework_status := (dictGet kvs "status").getD .none
      if !truthy homework_name then
        .error (.keyErr "Имя работы не обнаружено.")
      else
        match statusMember homework_status with
        | .error e => .error e
        | .ok false => .error (.unexpectedStatus "Обнаружен недокументированный статус.")
        | .ok true =>
            .ok ("Изменился статус проверки работы \"" ++ pyFormat homework_name ++ "\". " ++
              ((catalogVerdict homework_status).getD ""))
  | _ => .error (.attributeErr "object has no attribute get")

/-- The three environment variables read at module load via `os.getenv`
(`None` when unset). -/
structure Env where
  PRACTICUM_TOKEN : Option String
  TELEGRAM_TOKEN : Option String
  TELEGRAM_CHAT_ID : Option String

/-- Truthiness of an `os.getenv` result: `None` and the empty string are
falsy. -/
def optTruthy : Option String → Bool
  | Option.none => false
  | some s => !s.isEmpty

/-- Python `a and b` on `os.getenv` results: `a` when falsy, else `b`. -/
def pyAnd (a b : Option String) : Option String :=
  if optTruthy a then b else a

/-- `check_tokens` of `homework.py`:
`PRACTICUM_TOKEN and TELEGRAM_TOKEN and TELEGRAM_CHAT_ID`. -/
def check_tokens (env : Env) : Option String :=
  pyAnd env.PRACTICUM_TOKEN (pyAnd env.TELEGRAM_TOKEN env.TELEGRAM_CHAT_ID)

/-- The `token_dict` literal built in `main` when `check_tokens` is falsy. -/
def token_dict (env : Env) : List (String × Option String) :=
  [("PRACTICUM_TOKEN", env.PRACTICUM_TOKEN),
   ("TELEGRAM_TOKEN", env.TELEGRAM_TOKEN),
   ("TELEGRAM_CHAT_ID", env.TELEGRAM_CHAT_ID)]

/-- `missing = [key for key, value in token_dict.items() if not value]`:
the variable names whose value is falsy, logged by `logger.critical`. -/
def missingTokens (env : Env) : List String :=
  ((token_dict env).filter (fun kv => !optTruthy kv.2)).map Prod.fst

/-- The loop-owned mutable state of `main`: the poll timestamp
`current_timestamp` and the deduplication cache `last_message`. -/
structure LoopState where
  current_timestamp : PyVal
  last_message : String

/-- External inputs consumed by one loop iteration: the wall clock at the
fetch, the HTTP outcome, and whether Telegram delivery succeeds. -/
structure CycleInput where
  now : Int
  http : HttpOutcome
  delivered : Bool

/-- The poll timestamp after the fetch step of one iteration: `main` runs
`current_timestamp = response.get('current_date')` immediately after a
successful fetch of a dict (before `check_response` and `parse_status`);
on a fetch failure, or a non-dict body (where `.get` raises
`AttributeError`), the assignment is not reached and the old value stays. -/
def tryBodyTs (st : LoopState) (now : Int) (http : HttpOutcome) : PyVal :=
  match get_api_answer st.current_timestamp now http with
  | .ok (PyVal.dict kvs) => (dictGet kvs "current_date").getD PyVal.none
  | _ => st.current_timestamp

/-- Result of the `try` block of one loop iteration: the extracted message on
full success, `IndexError` from `homeworks[0]` on an empty list, or the first
exception raised along `get_api_answer` → `.get` → `check_response` →
`parse_status`. -/
def tryBodyRes (st : LoopState) (now : Int) (http : HttpOutcome) : Except BotError String :=
  match get_api_answer st.current_timestamp now http with
  | .error e => .error e
  | .ok response =>
      match response with
      | .dict _ =>
          match check_response response with
          | .error e => .error e
          | .ok [] => .error .indexErr
          | .ok (homework :: _) => parse_status homework
      | _ => .error (.attributeErr "object has no attribute get")

/-- State and outcome of the `try` block of one iteration of `main`. -/
def tryBody (st : LoopState) (now : Int) (http : HttpOutcome) :
    LoopState × Except BotError String :=
  ({ st with current_timestamp := tryBodyTs st now http }, tryBodyRes st now http)

/-- The diagnostic string built by `except Exception`:
`f"Сбой в работе программы: {exc}"`. -/
def diagnostic (e : BotError) : String :=
  "Сбой в работе программы: " ++ errMessage e

/-- The message this cycle would compare against `last_message`: `none` when
`IndexError` is caught (`continue`: no new statuses, nothing to send), the
extracted message on success, and the diagnostic for any other exception. -/
def candidateMessage (st : LoopState) (now : Int) (http : HttpOutcome) : Option String :=
  match tryBodyRes st now http with
  | .error .indexErr => Option.none
  | .ok m => some m
  | .error e => some (diagnostic e)

/-- One full iteration of the `while True` loop of `main`, ending at
`time.sleep(RETRY_TIME)`.  The result is `.ok (state, attempted sends)` when
the iteration reaches the sleep; `.error e` would mean an exception escaped
the loop body.  `except IndexError` continues silently; `except Exception`
turns the failure into a diagnostic message; a changed message updates
`last_message` and is handed to `send_message`, whose `SendMessageError` is
caught by `except SendMessageError`. -/
def loopBodyE (st : LoopState) (now : Int) (http : HttpOutcome) (delivered : Bool) :
    Except BotError (LoopState × List String) :=
  let st1 : LoopState := { st with current_timestamp := tryBodyTs st now http }
  match candidateMessage st now http with
  | Option.none => .ok (st1, [])
  | some message =>
      if st.last_message = message then .ok (st1, [])
      else
        match send_message delivered message with
        | .ok _ => .ok ({ st1 with last_message := message }, [message])
        | .error (.sendMessageErr _) => .ok ({ st1 with last_message := message }, [message])
        | .error e => .error e

/-- Total view of one loop iteration (its `.error` fallback is unreachable,
see the liveness theorem below). -/
def cycle (st : LoopState) (now : Int) (http : HttpOutcome) (delivered : Bool) :
    LoopState × List String :=
  match loopBodyE st now http delivered with
  | .ok r => r
  | .error _ => (st, [])

/-- A finite run of the poll loop, collecting all attempted sends. -/
def runCycles : LoopState → List CycleInput → LoopState × List String
  | st, [] => (st, [])
  | st, inp :: rest =>
      let r1 := cycle st inp.now inp.http inp.delivered
      let r2 := runCycles r1.1 rest
      (r2.1, r1.2 ++ r2.2)

/-- Observable outcome of `main`: either `sys.exit` before the loop (exit
code and the missing-variable names passed to `logger.critical`), or a run of
the loop. -/
inductive MainResult where
  | exited (code : Int) (missing : List String)
  | looped (final : LoopState) (sent : List String)

/-- `main` of `homework.py`: when `check_tokens()` is falsy, log the missing
variable names and `sys.exit(<message string>)` — exit code 1; otherwise
enter the loop with `current_timestamp = int(time.time())` and
`last_message = ""`. -/
def main (env : Env) (now0 : Int) (inputs : List CycleInput) : MainResult :=
  if optTruthy (check_tokens env) then
    let r := runCycles { current_timestamp := .int now0, last_message := "" } inputs
    .looped r.1 r.2
  else
    .exited 1 (missingTokens env)

/-- `needle` occurs as a contiguous substring of `hay`. -/
def strOccurs (needle hay : String) : Prop :=
  ∃ s t : List Char, s ++ needle.toList ++ t = hay.toList

/-- Closed form of one loop iteration: no candidate message leaves the
deduplication cache alone; a candidate equal to `last_message` is skipped;
a new candidate overwrites `last_message` and is handed to the Notifier —
whether or not delivery succeeds. -/
theorem loopBodyE_eq (st : LoopState) (now : Int) (http : HttpOutcome) (delivered : Bool) :
    loopBodyE st now http delivered =
      Except.ok (match candidateMessage st now http with
        | Option.none => (LoopState.mk (tryBodyTs st now http) st.last_message, [])
        | some message =>
            if st.last_message = message
            then (LoopState.mk (tryBodyTs st now http) st.last_message, [])
            else (LoopState.mk (tryBodyTs st now http) message, [message])) := by
  unfold loopBodyE
  cases candidateMessage st now http with
  | none => rfl
  | some message =>
      dsimp only
      by_cases h : st.last_message = message
      · rw [if_pos h, if_pos h]
      · rw [if_neg h, if_neg h]
        cases delivered <;> rfl

/-- The same closed form for the total view `cycle`. -/
theorem cycle_eq (st : LoopState) (now : Int) (http : HttpOutcome) (delivered : Bool) :
    cycle st now http delivered =
      match candidateMessage st now http with
      | Option.none => (LoopState.mk (tryBodyTs st now http) st.last_message, [])
      | some message =>
          if st.last_message = message
          then (LoopState.mk (tryBodyTs st now http) st.last_message, [])
          else (LoopState.mk (tryBodyTs st now http) message, [message]) := by
  unfold cycle
  rw [loopBodyE_eq]

/-- Claim C1, counterexample: the envelope `{"homeworks": []}` is a mapping
lacking the required key `current_date`, yet `check_response` does not fail
with the missing-expected-keys kind — it succeeds and returns the empty
list, because the source raises `ExpectedKeysNotFoundError` only when BOTH
keys are absent. -/
theorem C1_counterexample :
    check_response (PyVal.dict [("homeworks", PyVal.list [])]) = Except.ok [] := rfl

/-- Claim C1 as amended: `check_response` fails with the missing-expected-keys
kind exactly when both required keys are absent from the mapping; a non-mapping
input fails with the type-mismatch kind, and a mapping whose `homeworks` value
is not a list (including a mapping that has `current_date` but lacks
`homeworks`) fails with the type-mismatch kind; the two kinds are distinct. -/
theorem C1_amended :
    (∀ kvs, dictHasKey kvs "current_date" = false → dictHasKey kvs "homeworks" = false →
      check_response (PyVal.dict kvs) =
        Except.error (BotError.expectedKeysNotFound "Ответ не содержит ожидаемых ключей.")) ∧
    (∀ r : PyVal, (∀ kvs, r ≠ PyVal.dict kvs) →
      check_response r = Except.error (BotError.typeErr "Ответ сервер не является словарем.")) ∧
    (∀ kvs, (dictHasKey kvs "current_date" = true ∨ dictHasKey kvs "homeworks" = true) →
      isListVal ((dictGet kvs "homeworks").getD PyVal.none) = false →
      check_response (PyVal.dict kvs) =
        Except.error (BotError.typeErr "homeworks не является списком.")) ∧
    (∀ m m', BotError.expectedKeysNotFound m ≠ BotError.typeErr m') := by
  refine ⟨?_, ?_, ?_, ?_⟩
  · intro kvs h1 h2
    simp [check_response, h1, h2]
  · intro r h
    cases r with
    | dict kvs => exact absurd rfl (h kvs)
    | str s => rfl
    | int n => rfl
    | list l => rfl
    | none => rfl
  · intro kvs hk hl
    have hcond : (!dictHasKey kvs "current_date" && !dictHasKey kvs "homeworks") = false := by
      rcases hk with h | h <;> simp [h]
    cases hv : (dictGet kvs "homeworks").getD PyVal.none with
    | list l => rw [hv] at hl; simp [isListVal] at hl
    | str s => simp [check_response, hcond, hv]
    | int n => simp [check_response, hcond, hv]
    | dict d => simp [check_response, hcond, hv]
    | none => simp [check_response, hcond, hv]
  · intro m m' h
    exact BotError.noConfusion h

/-- Claim C1, witness: the amended theorem applied to the empty mapping (both
keys absent), to a non-mapping input, and to a mapping with `current_date`
but no `homeworks`. -/
theorem C1_amended_witness :
    check_response (PyVal.dict []) =
      Except.error (BotError.expectedKeysNotFound "Ответ не содержит ожидаемых ключей.") ∧
    check_response (PyVal.int 0) =
      Except.error (BotError.typeErr "Ответ сервер не является словарем.") ∧
    check_response (PyVal.dict [("current_date", PyVal.int 1)]) =
      Except.error (BotError.typeErr "homeworks не является списком.") :=
  ⟨C1_amended.1 [] rfl rfl,
   C1_amended.2.1 (PyVal.int 0) (fun _ h => PyVal.noConfusion h),
   C1_amended.2.2.1 [("current_date", PyVal.int 1)] (Or.inl rfl) rfl⟩

/-- Claim C2: in the source the `raise UnexpectedStatusCodeError` for a
non-200 status sits inside the `try` block whose `except Exception` re-raises
everything as the builtin `ConnectionError`, so the status-code failure kind
constructed with the code and request parameters (first conjunct: the body of
the `try` block does raise it) never propagates out of `get_api_answer`:
a 500 response, a transport failure and a non-JSON 200 body all surface as
the same `ConnectionError` (remaining conjuncts), contradicting the
documented intent of `UnexpectedStatusCodeError` in `errors.py`. -/
theorem C2_non200_wrapped :
    get_api_answer_inner (PyVal.int 5) (HttpOutcome.response 500 (some (PyVal.dict []))) =
      Except.error (BotError.unexpectedStatusCode 500 (PyVal.int 5)) ∧
    get_api_answer (PyVal.int 5) 10 (HttpOutcome.response 500 (some (PyVal.dict []))) =
      Except.error
        (BotError.connectionErr "Ответ от сервера не получен/Формат ответа отличен от JSON ") ∧
    get_api_answer (PyVal.int 5) 10 (HttpOutcome.transportFailure "timeout") =
      Except.error
        (BotError.connectionErr "Ответ от сервера не получен/Формат ответа отличен от JSON ") ∧
    get_api_answer (PyVal.int 5) 10 (HttpOutcome.response 200 Option.none) =
      Except.error
        (BotError.connectionErr "Ответ от сервера не получен/Формат ответа отличен от JSON ") :=
  ⟨rfl, rfl, rfl, rfl⟩

/-- Claim C8, counterexample: the record `{"status": "in_review"}` has a
status outside the catalog, yet `parse_status` fails with the missing-field
kind (`KeyError`), not the unrecognized-status kind — the name check runs
first. -/
theorem C8_counterexample :
    parse_status (PyVal.dict [("status", PyVal.str "in_review")]) =
      Except.error (BotError.keyErr "Имя работы не обнаружено.") := rfl

/-- Claim C8 as amended: `parse_status` fails with the missing-field kind
(`KeyError`) for every record whose name is missing or empty (falsy) — the
name check runs first, so a record failing both checks gets the missing-field
kind; for a record whose name is present and non-empty, the membership test
on the status yields the distinct unrecognized-status kind whenever the
status is a hashable value not in the Status Catalog (such as the string
`in_review`), while an unhashable (list-valued) status makes the membership
test itself raise `TypeError` instead. -/
theorem C8_amended :
    (∀ kvs, truthy ((dictGet kvs "homework_name").getD PyVal.none) = false →
      parse_status (PyVal.dict kvs) =
        Except.error (BotError.keyErr "Имя работы не обнаружено.")) ∧
    (∀ kvs, truthy ((dictGet kvs "homework_name").getD PyVal.none) = true →
      statusMember ((dictGet kvs "status").getD PyVal.none) = Except.ok false →
      parse_status (PyVal.dict kvs) =
        Except.error (BotError.unexpectedStatus "Обнаружен недокументированный статус.")) ∧
    (∀ kvs l, truthy ((dictGet kvs "homework_name").getD PyVal.none) = true →
      (dictGet kvs "status").getD PyVal.none = PyVal.list l →
      parse_status (PyVal.dict kvs) =
        Except.error (BotError.typeErr "unhashable type: 'list'")) ∧
    (∀ m m', BotError.keyErr m ≠ BotError.unexpectedStatus m') := by
  refine ⟨?_, ?_, ?_, ?_⟩
  · intro kvs h
    simp [parse_status, h]
  · intro kvs h1 h2
    simp [parse_status, h1, h2]
  · intro kvs l h1 h2
    simp [parse_status, h1, h2, statusMember]
  · intro m m' h
    exact BotError.noConfusion h

/-- Claim C8, witness: the amended theorem applied to a record with no name
at all, to a record named `hw1` with status `in_review`, and to a record
named `hw1` with an unhashable (list) status. -/
theorem C8_amended_witness :
    parse_status (PyVal.dict []) =
      Except.error (BotError.keyErr "Имя работы не обнаружено.") ∧
    parse_status (PyVal.dict [("homework_name", PyVal.str "hw1"),
        ("status", PyVal.str "in_review")]) =
      Except.error (BotError.unexpectedStatus "Обнаружен недокументированный статус.") ∧
    parse_status (PyVal.dict [("homework_name", PyVal.str "hw1"),
        ("status", PyVal.list [])]) =
      Except.error (BotError.typeErr "unhashable type: 'list'") :=
  ⟨C8_amended.1 [] rfl,
   C8_amended.2.1 [("homework_name", PyVal.str "hw1"), ("status", PyVal.str "in_review")]
     rfl rfl,
   C8_amended.2.2.1 [("homework_name", PyVal.str "hw1"), ("status", PyVal.list [])] []
     rfl rfl⟩

/-- Claim C4: the body of the `while True` loop always completes its
iteration (reaches `time.sleep`) — for every loop state, clock value, HTTP
outcome and delivery outcome, no exception escapes: `IndexError` is caught
and continues, every other fetch/validation/extraction failure is caught and
turned into a diagnostic, and a `SendMessageError` from the Notifier (the
only failure `send_message` can raise, for a status message and for a
diagnostic alike) is caught and only logged. -/
theorem C4_loop_never_dies (st : LoopState) (now : Int) (http : HttpOutcome) (delivered : Bool) :
    ∃ r, loopBodyE st now http delivered = Except.ok r := by
  unfold loopBodyE
  cases candidateMessage st now http with
  | none => exact ⟨_, rfl⟩
  | some message =>
      dsimp only
      split
      · exact ⟨_, rfl⟩
      · cases delivered <;> exact ⟨_, rfl⟩

/-- The envelope `{"homeworks": [], "current_date": 1000}` of the C6
scenario. -/
def envelopeEmpty : PyVal :=
  PyVal.dict [("homeworks", PyVal.list []), ("current_date", PyVal.int 1000)]

/-- Claim C6: on the envelope `{"homeworks": [], "current_date": 1000}` a
poll cycle sends no notification, reaches the sleep step without crashing
(`.ok`), and the poll timestamp becomes `1000`; `check_response` returns the
empty homework list as a normal, non-erroring result. -/
theorem C6_empty_envelope (st : LoopState) (now : Int) (delivered : Bool) :
    loopBodyE st now (HttpOutcome.response 200 (some envelopeEmpty)) delivered =
      Except.ok ({ st with current_timestamp := PyVal.int 1000 }, []) ∧
    check_response envelopeEmpty = Except.ok [] :=
  ⟨rfl, rfl⟩

/-- Python `and` on getenv results is truthy iff both operands are. -/
theorem optTruthy_pyAnd (a b : Option String) :
    optTruthy (pyAnd a b) = (optTruthy a && optTruthy b) := by
  unfold pyAnd
  cases h : optTruthy a <;> simp [h]

/-- Claim C9: when at least one of the three required environment tokens is
falsy at startup, `main` exits with code 1 — nonzero — before any poll cycle
runs (the result does not depend on `inputs`), after logging a diagnostic
whose variable list is nonempty and contains exactly the names of the falsy
tokens. -/
theorem C9_missing_tokens (env : Env) (now0 : Int) (inputs : List CycleInput)
    (h : optTruthy env.PRACTICUM_TOKEN = false ∨ optTruthy env.TELEGRAM_TOKEN = false ∨
      optTruthy env.TELEGRAM_CHAT_ID = false) :
    main env now0 inputs = MainResult.exited 1 (missingTokens env) ∧
    missingTokens env ≠ [] ∧ (1 : Int) ≠ 0 ∧
    (∀ name, name ∈ missingTokens env ↔
      ((name = "PRACTICUM_TOKEN" ∧ optTruthy env.PRACTICUM_TOKEN = false) ∨
       (name = "TELEGRAM_TOKEN" ∧ optTruthy env.TELEGRAM_TOKEN = false) ∨
       (name = "TELEGRAM_CHAT_ID" ∧ optTruthy env.TELEGRAM_CHAT_ID = false))) := by
  have hck : optTruthy (check_tokens env) = false := by
    unfold check_tokens
    rw [optTruthy_pyAnd, optTruthy_pyAnd]
    rcases h with h | h | h <;> simp [h]
  refine ⟨by simp [main, hck], ?_, by decide, ?_⟩
  · cases hP : optTruthy env.PRACTICUM_TOKEN <;>
      cases hT : optTruthy env.TELEGRAM_TOKEN <;>
      cases hC : optTruthy env.TELEGRAM_CHAT_ID <;>
      simp_all [missingTokens, token_dict]
  · intro name
    cases hP : optTruthy env.PRACTICUM_TOKEN <;>
      cases hT : optTruthy env.TELEGRAM_TOKEN <;>
      cases hC : optTruthy env.TELEGRAM_CHAT_ID <;>
      simp_all [missingTokens, token_dict]

/-- Claim C9, witness: with `TELEGRAM_CHAT_ID` unset (the spec's scenario),
`main` exits with code 1 before any cycle and the diagnostic names exactly
that variable. -/
theorem C9_missing_tokens_witness :
    optTruthy (Env.mk (some "p") (some "t") Option.none).TELEGRAM_CHAT_ID = false ∧
    main (Env.mk (some "p") (some "t") Option.none) 0 [] =
      MainResult.exited 1 (missingTokens (Env.mk (some "p") (some "t") Option.none)) ∧
    missingTokens (Env.mk (some "p") (some "t") Option.none) = ["TELEGRAM_CHAT_ID"] :=
  ⟨rfl,
   (C9_missing_tokens (Env.mk (some "p") (some "t") Option.none) 0 []
     (Or.inr (Or.inr rfl))).1,
   rfl⟩

/-- Claim C10: whenever the fetch returns an envelope (a mapping), the loop
stores the envelope's `current_date` value — `PyVal.none` when the key is
absent — as the new poll timestamp before validation and extraction run, so
the whole cycle ends with that timestamp no matter how validation or
extraction turn out; and a `None` timestamp is replaced by the wall-clock
`now` when building the next request's `from_date` parameter. -/
theorem C10_cursor_overwrite (st : LoopState) (now : Int) (http : HttpOutcome)
    (kvs : List (String × PyVal)) (delivered : Bool)
    (h : get_api_answer st.current_timestamp now http = Except.ok (PyVal.dict kvs)) :
    (tryBody st now http).1.current_timestamp = (dictGet kvs "current_date").getD PyVal.none ∧
    (cycle st now http delivered).1.current_timestamp =
      (dictGet kvs "current_date").getD PyVal.none ∧
    requestParams PyVal.none now = PyVal.int now := by
  have hts : tryBodyTs st now http = (dictGet kvs "current_date").getD PyVal.none := by
    unfold tryBodyTs
    rw [h]
  refine ⟨hts, ?_, rfl⟩
  rw [cycle_eq]
  cases candidateMessage st now http with
  | none => exact hts
  | some message =>
      dsimp only
      split <;> exact hts

/-- An envelope with a cursor but an invalid (non-list) `homeworks` value,
used to exercise a cycle that fails validation. -/
def envelopeNoList : PyVal :=
  PyVal.dict [("current_date", PyVal.int 7), ("homeworks", PyVal.int 5)]

/-- Claim C10, witness: a cycle receiving an envelope whose validation fails
(`homeworks` is not a list) still ends with the poll timestamp set to the
envelope's cursor `7`. -/
theorem C10_cursor_overwrite_witness :
    get_api_answer (LoopState.mk (PyVal.int 0) "").current_timestamp 5
        (HttpOutcome.response 200 (some envelopeNoList)) = Except.ok envelopeNoList ∧
    (tryBody (LoopState.mk (PyVal.int 0) "") 5
        (HttpOutcome.response 200 (some envelopeNoList))).1.current_timestamp = PyVal.int 7 ∧
    (cycle (LoopState.mk (PyVal.int 0) "") 5
        (HttpOutcome.response 200 (some envelopeNoList)) true).1.current_timestamp =
      PyVal.int 7 ∧
    tryBodyRes (LoopState.mk (PyVal.int 0) "") 5
        (HttpOutcome.response 200 (some envelopeNoList)) =
      Except.error (BotError.typeErr "homeworks не является списком.") := by
  have h := C10_cursor_overwrite (LoopState.mk (PyVal.int 0) "") 5
    (HttpOutcome.response 200 (some envelopeNoList))
    [("current_date", PyVal.int 7), ("homeworks", PyVal.int 5)] true rfl
  exact ⟨rfl, h.1, h.2.1, rfl⟩

/-- Envelope with one homework record `hw1` in status `approved` and cursor
`1000`, used by the loop-level scenarios. -/
def envelopeHw1 : PyVal :=
  PyVal.dict [("homeworks", PyVal.list [PyVal.dict
      [("homework_name", PyVal.str "hw1"), ("status", PyVal.str "approved")]]),
    ("current_date", PyVal.int 1000)]

/-- HTTP outcome delivering `envelopeHw1` with status 200. -/
def httpHw1 : HttpOutcome := HttpOutcome.response 200 (some envelopeHw1)

/-- The notification `parse_status` produces for `envelopeHw1`'s record. -/
def msgHw1 : String :=
  "Изменился статус проверки работы \"hw1\". Работа проверена: ревьюеру всё понравилось. Ура!"

/-- Claim C3, counterexample: starting from `last_message = ""`, the cycle's
candidate message `msgHw1` differs from Last Notification and delivery fails
(`delivered = false`), yet Last Notification is overwritten to `msgHw1` —
the source assigns `last_message = message` before calling `send_message`,
so a failed dispatch does not leave it unchanged. -/
theorem C3_counterexample :
    candidateMessage (LoopState.mk (PyVal.int 0) "") 5 httpHw1 = some msgHw1 ∧
    msgHw1 ≠ "" ∧
    (cycle (LoopState.mk (PyVal.int 0) "") 5 httpHw1 false).1.last_message = msgHw1 :=
  ⟨rfl, by decide, rfl⟩

/-- Claim C3 as amended: in every poll cycle whose candidate message differs
from Last Notification, Last Notification is overwritten with the candidate
before dispatch is attempted — regardless of whether delivery succeeds — and
the Notifier is invoked on that message (the source updates `last_message`
first and then calls `send_message`, catching its failure). -/
theorem C3_amended (st : LoopState) (now : Int) (http : HttpOutcome) (delivered : Bool)
    (M : String) (hc : candidateMessage st now http = some M)
    (hne : st.last_message ≠ M) :
    (cycle st now http delivered).1.last_message = M ∧
    (cycle st now http delivered).2 = [M] := by
  rw [cycle_eq, hc]
  dsimp only
  rw [if_neg hne]
  exact ⟨rfl, rfl⟩

/-- Claim C3, witness: the amended theorem at the concrete failing-delivery
cycle. -/
theorem C3_amended_witness :
    candidateMessage (LoopState.mk (PyVal.int 0) "") 5 httpHw1 = some msgHw1 ∧
    (LoopState.mk (PyVal.int 0) "").last_message ≠ msgHw1 ∧
    ((cycle (LoopState.mk (PyVal.int 0) "") 5 httpHw1 false).1.last_message = msgHw1 ∧
      (cycle (LoopState.mk (PyVal.int 0) "") 5 httpHw1 false).2 = [msgHw1]) :=
  ⟨rfl, by decide,
   C3_amended (LoopState.mk (PyVal.int 0) "") 5 httpHw1 false msgHw1 rfl (by decide)⟩

/-- Claim C5: if two consecutive poll cycles produce the same candidate
message `M`, the Notifier is invoked at most once across the two cycles —
either the first cycle already matches Last Notification (zero sends), or it
sends `M` once and overwrites Last Notification, so the second cycle's
identical candidate is suppressed. -/
theorem C5_dedup (st : LoopState) (n₁ n₂ : Int) (h₁ h₂ : HttpOutcome) (d₁ d₂ : Bool)
    (M : String)
    (hc₁ : candidateMessage st n₁ h₁ = some M)
    (hc₂ : candidateMessage (cycle st n₁ h₁ d₁).1 n₂ h₂ = some M) :
    ((cycle st n₁ h₁ d₁).2 ++ (cycle (cycle st n₁ h₁ d₁).1 n₂ h₂ d₂).2).length ≤ 1 := by
  by_cases h : st.last_message = M
  · have e1 : cycle st n₁ h₁ d₁ = (LoopState.mk (tryBodyTs st n₁ h₁) st.last_message, []) := by
      rw [cycle_eq, hc₁]
      dsimp only
      rw [if_pos h]
    rw [e1] at hc₂ ⊢
    dsimp only at hc₂ ⊢
    have e2 : cycle (LoopState.mk (tryBodyTs st n₁ h₁) st.last_message) n₂ h₂ d₂ =
        (LoopState.mk (tryBodyTs (LoopState.mk (tryBodyTs st n₁ h₁) st.last_message) n₂ h₂)
          st.last_message, []) := by
      rw [cycle_eq, hc₂]
      dsimp only
      rw [if_pos h]
    rw [e2]
    simp
  · have e1 : cycle st n₁ h₁ d₁ = (LoopState.mk (tryBodyTs st n₁ h₁) M, [M]) := by
      rw [cycle_eq, hc₁]
      dsimp only
      rw [if_neg h]
    rw [e1] at hc₂ ⊢
    dsimp only at hc₂ ⊢
    have e2 : cycle (LoopState.mk (tryBodyTs st n₁ h₁) M) n₂ h₂ d₂ =
        (LoopState.mk (tryBodyTs (LoopState.mk (tryBodyTs st n₁ h₁) M) n₂ h₂) M, []) := by
      rw [cycle_eq, hc₂]
      dsimp only
      rw [if_pos rfl]
    rw [e2]
    simp

/-- Claim C5, witness: two consecutive cycles both receiving `envelopeHw1`
produce the same candidate `msgHw1`; across the two cycles exactly one send
is attempted. -/
theorem C5_dedup_witness :
    candidateMessage (LoopState.mk (PyVal.int 0) "") 5 httpHw1 = some msgHw1 ∧
    candidateMessage (cycle (LoopState.mk (PyVal.int 0) "") 5 httpHw1 true).1 6 httpHw1 =
      some msgHw1 ∧
    ((cycle (LoopState.mk (PyVal.int 0) "") 5 httpHw1 true).2 ++
      (cycle (cycle (LoopState.mk (PyVal.int 0) "") 5 httpHw1 true).1 6 httpHw1 true).2).length
      ≤ 1 :=
  ⟨rfl, rfl, C5_dedup (LoopState.mk (PyVal.int 0) "") 5 6 httpHw1 httpHw1 true true msgHw1 rfl rfl⟩

/-- The notification template of `parse_status`:
`f'Изменился статус проверки работы "{name}". {verdict}'`. -/
def msgFor (n v : String) : String :=
  "Изменился статус проверки работы \"" ++ n ++ "\". " ++ v

/-- String concatenation concatenates the character lists. -/
theorem toList_append (a b : String) : (a ++ b).toList = a.toList ++ b.toList := rfl

/-- A computed `isSuffixOf = false` refutes the suffix relation. -/
theorem not_suffix_of_isSuffixOf_false {l₁ l₂ : List Char}
    (h : l₁.isSuffixOf l₂ = false) : ¬ l₁ <:+ l₂ := by
  intro hs
  rw [← List.isSuffixOf_iff_suffix] at hs
  rw [h] at hs
  exact Bool.noConfusion hs

/-- Two suffixes of one list are comparable, so two strings that are not
suffixes of each other cannot both be suffixes of the same list. -/
theorem suffix_rigid {v w : String} {L : List Char}
    (hw : w.toList <:+ L) (hv : v.toList <:+ L)
    (h1 : w.toList.isSuffixOf v.toList = false)
    (h2 : v.toList.isSuffixOf w.toList = false) : False := by
  rcases List.suffix_or_suffix_of_suffix hw hv with h | h
  · exact not_suffix_of_isSuffixOf_false h1 h
  · exact not_suffix_of_isSuffixOf_false h2 h

/-- The submission name occurs in the formatted notification. -/
theorem strOccurs_name (n v : String) : strOccurs n (msgFor n v) :=
  ⟨("Изменился статус проверки работы \"").toList, ("\". ").toList ++ v.toList, by
    simp [msgFor, toList_append, List.append_assoc]⟩

/-- The verdict occurs in the formatted notification. -/
theorem strOccurs_verdict (n v : String) : strOccurs v (msgFor n v) :=
  ⟨("Изменился статус проверки работы \"").toList ++ n.toList ++ ("\". ").toList, [], by
    simp [msgFor, toList_append, List.append_assoc]⟩

/-- The verdict is the trailing part (a suffix) of the formatted
notification. -/
theorem verdict_suffix (n v : String) : v.toList <:+ (msgFor n v).toList :=
  ⟨("Изменился статус проверки работы \"" ++ n ++ "\". ").toList, by
    simp [msgFor, toList_append, List.append_assoc]⟩

/-- Successful `parse_status` run: with a non-empty string name and a status
found in the catalog, the result is the formatted notification. -/
theorem parse_status_ok (kvs : List (String × PyVal)) (n s v : String)
    (hn : dictGet kvs "homework_name" = some (PyVal.str n))
    (hne : n.isEmpty = false)
    (hs : dictGet kvs "status" = some (PyVal.str s))
    (hf : HOMEWORK_STATUSES.find? (fun p => p.1 == s) = some (s, v)) :
    parse_status (PyVal.dict kvs) = Except.ok (msgFor n v) := by
  simp only [parse_status]
  rw [hn, hs]
  simp [truthy, hne, statusMember, catalogVerdict, hf, pyFormat, msgFor]

/-- Claim C7, counterexample: for the record whose name is itself the
`reviewing` verdict text and whose status is `approved`, `parse_status`
returns a message containing TWO distinct catalog verdict texts as
substrings — not exactly one — since the adversarial name embeds a second
verdict. -/
theorem C7_counterexample :
    parse_status (PyVal.dict [("homework_name", PyVal.str verdictReviewing),
        ("status", PyVal.str "approved")]) =
      Except.ok (msgFor verdictReviewing verdictApproved) ∧
    strOccurs verdictReviewing (msgFor verdictReviewing verdictApproved) ∧
    strOccurs verdictApproved (msgFor verdictReviewing verdictApproved) ∧
    ("reviewing", verdictReviewing) ∈ HOMEWORK_STATUSES ∧
    ("approved", verdictApproved) ∈ HOMEWORK_STATUSES ∧
    verdictReviewing ≠ verdictApproved :=
  ⟨rfl,
   strOccurs_name verdictReviewing verdictApproved,
   strOccurs_verdict verdictReviewing verdictApproved,
   by simp [HOMEWORK_STATUSES],
   by simp [HOMEWORK_STATUSES],
   by decide⟩

/-- Claim C7 as amended: for every record whose name is a present, non-empty
string and whose status is one of the three catalog keys, `parse_status`
returns a message that contains the submission name and contains the catalog
verdict of that status (an entry of the Status Catalog); moreover exactly one
catalog verdict occurs as the trailing verdict (suffix) of the message.  (As
a plain substring the verdict need not be unique: a name may embed another
verdict, see the counterexample.) -/
theorem C7_amended (kvs : List (String × PyVal)) (n s : String)
    (hn : dictGet kvs "homework_name" = some (PyVal.str n))
    (hne : n.isEmpty = false)
    (hs : dictGet kvs "status" = some (PyVal.str s))
    (hcat : s = "approved" ∨ s = "reviewing" ∨ s = "rejected") :
    ∃ msg v,
      parse_status (PyVal.dict kvs) = Except.ok msg ∧
      (s, v) ∈ HOMEWORK_STATUSES ∧
      strOccurs n msg ∧
      strOccurs v msg ∧
      v.toList <:+ msg.toList ∧
      (∀ p ∈ HOMEWORK_STATUSES, p.2.toList <:+ msg.toList → p = (s, v)) := by
  rcases hcat with rfl | rfl | rfl
  · refine ⟨msgFor n verdictApproved, verdictApproved,
      parse_status_ok kvs n "approved" verdictApproved hn hne hs rfl,
      by simp [HOMEWORK_STATUSES],
      strOccurs_name n verdictApproved,
      strOccurs_verdict n verdictApproved,
      verdict_suffix n verdictApproved, ?_⟩
    intro p hp hsuf
    have hvs := verdict_suffix n verdictApproved
    simp only [HOMEWORK_STATUSES, List.mem_cons, List.not_mem_nil, or_false] at hp
    rcases hp with rfl | rfl | rfl
    · rfl
    · exact (suffix_rigid hsuf hvs (by decide) (by decide)).elim
    · exact (suffix_rigid hsuf hvs (by decide) (by decide)).elim
  · refine ⟨msgFor n verdictReviewing, verdictReviewing,
      parse_status_ok kvs n "reviewing" verdictReviewing hn hne hs rfl,
      by simp [HOMEWORK_STATUSES],
      strOccurs_name n verdictReviewing,
      strOccurs_verdict n verdictReviewing,
      verdict_suffix n verdictReviewing, ?_⟩
    intro p hp hsuf
    have hvs := verdict_suffix n verdictReviewing
    simp only [HOMEWORK_STATUSES, List.mem_cons, List.not_mem_nil, or_false] at hp
    rcases hp with rfl | rfl | rfl
    · exact (suffix_rigid hsuf hvs (by decide) (by decide)).elim
    · rfl
    · exact (suffix_rigid hsuf hvs (by decide) (by decide)).elim
  · refine ⟨msgFor n verdictRejected, verdictRejected,
      parse_status_ok kvs n "rejected" verdictRejected hn hne hs rfl,
      by simp [HOMEWORK_STATUSES],
      strOccurs_name n verdictRejected,
      strOccurs_verdict n verdictRejected,
      verdict_suffix n verdictRejected, ?_⟩
    intro p hp hsuf
    have hvs := verdict_suffix n verdictRejected
    simp only [HOMEWORK_STATUSES, List.mem_cons, List.not_mem_nil, or_false] at hp
    rcases hp with rfl | rfl | rfl
    · exact (suffix_rigid hsuf hvs (by decide) (by decide)).elim
    · exact (suffix_rigid hsuf hvs (by decide) (by decide)).elim
    · rfl

/-- Claim C7, witness: the amended theorem at the record
`{"homework_name": "hw1", "status": "approved"}`. -/
theorem C7_amended_witness :
    dictGet [("homework_name", PyVal.str "hw1"), ("status", PyVal.str "approved")]
        "homework_name" = some (PyVal.str "hw1") ∧
    ("hw1").isEmpty = false ∧
    dictGet [("homework_name", PyVal.str "hw1"), ("status", PyVal.str "approved")]
        "status" = some (PyVal.str "approved") ∧
    (∃ msg v,
      parse_status (PyVal.dict [("homework_name", PyVal.str "hw1"),
          ("status", PyVal.str "approved")]) = Except.ok msg ∧
      ("approved", v) ∈ HOMEWORK_STATUSES ∧
      strOccurs "hw1" msg ∧
      strOccurs v msg ∧
      v.toList <:+ msg.toList ∧
      (∀ p ∈ HOMEWORK_STATUSES, p.2.toList <:+ msg.toList → p = ("approved", v))) :=
  ⟨rfl, rfl, rfl,
   C7_amended [("homework_name", PyVal.str "hw1"), ("status", PyVal.str "approved")]
     "hw1" "approved" rfl rfl rfl (Or.inl rfl)⟩

end HomeworkBot
